import Mathlib

/-!
Shallow embedding of `src/tasks.py` (RobotSpareBin ordering automation).

The Python program drives a browser page, a CSV download, PDF rendering and
zip archiving.  We embed it as pure functions over explicit oracles:

* page queries that may raise (`is_visible`, clicks) are modelled as
  `Except PyErr _` values supplied by the environment;
* every page/filesystem side effect is recorded as an `Event` in a trace;
* the filesystem is an association list from structured paths (`Loc`) to
  file contents (`FileData`), with overwriting writes;
* the external library calls (`HTTP.download` with `overwrite=True`,
  `Tables.read_table_from_csv`, `PDF.html_to_pdf`,
  `Archive.archive_folder_with_zip`) are modelled by their contracts:
  an overwriting file write, an opaque parse function supplied by the
  environment, a write of the rendered HTML, and a write of the zip entry
  list.
-/

namespace RobotOrder

/-- A Python exception value (anything caught by `except Exception`),
identified by its message. -/
structure PyErr where
  msg : String
deriving Repr, DecidableEq

/-- Result of a Python expression that may raise. -/
abbrev PyResult (α : Type) := Except PyErr α

/-- A structured file path: directory part and file name, mirroring
`pathlib.Path` values `DIR / name` used by `tasks.py`. -/
structure Loc where
  dir : String
  name : String
deriving Repr, DecidableEq

/-- Render a `Loc` as the flat string path `dir/name`. -/
def Loc.render (p : Loc) : String := p.dir ++ "/" ++ p.name

/-- Contents of a file in the modelled filesystem. -/
inductive FileData where
  /-- A screenshot PNG (contents irrelevant to the spec). -/
  | png
  /-- A receipt PDF: rendered from this HTML document. -/
  | pdfFile (html : String)
  /-- The downloaded CSV text. -/
  | csvData (text : String)
  /-- A zip archive: the names of the files bundled into it. -/
  | zipData (names : List String)
deriving Repr, DecidableEq

/-- The filesystem: an association list from paths to contents, in
creation order. -/
abbrev Fs := List (Loc × FileData)

/-- Overwriting write: replaces the entry at `p` in place, or appends a
new entry at the end. -/
def fsWrite : Fs → Loc → FileData → Fs
  | [], p, d => [(p, d)]
  | (q, e) :: rest, p, d =>
      if q = p then (p, d) :: rest else (q, e) :: fsWrite rest p d

/-- Look up a path in the filesystem. -/
def fsLookup : Fs → Loc → Option FileData
  | [], _ => none
  | (q, e) :: rest, p => if q = p then some e else fsLookup rest p

/-- The names of the files currently in directory `dir`, in filesystem
order (models listing the folder for `archive_folder_with_zip`). -/
def filesInDir (dir : String) (fs : Fs) : List String :=
  (fs.filter (fun pe => pe.1.dir = dir)).map (fun pe => pe.1.name)

/-- One observable side effect of the program. -/
inductive Event where
  /-- `page.goto(url)` -/
  | gotoUrl (url : String)
  /-- `page.click("//button[text()='OK']")` (modal confirm). -/
  | clickOk
  /-- `page.select_option("#head", v)` -/
  | selectHead (v : String)
  /-- `page.check("input[type='radio'][value='...']")` -/
  | checkBody (v : String)
  /-- fill the legs part-number field -/
  | fillLegs (v : String)
  /-- fill the shipping-address field -/
  | fillAddress (v : String)
  /-- `page.click("//button[text()='Preview']")` -/
  | clickPreview
  /-- `element.screenshot(path=...)` saved a PNG at `p`. -/
  | screenshotSaved (p : Loc)
  /-- `page.click("#order")` (submit). -/
  | clickSubmit
  /-- `time.sleep(0.3)` settle wait. -/
  | sleep300
  /-- `pdf.html_to_pdf(html, path)` saved a receipt at `p`. -/
  | receiptSaved (p : Loc) (html : String)
  /-- `page.click("#order-another")` -/
  | clickOrderAnother
  /-- `http.download(url, overwrite=True)` -/
  | httpDownload (url : String)
  /-- `arc.archive_folder_with_zip(dir, zipPath)` -/
  | archiveZip (dir : String) (zipPath : Loc)
deriving Repr, DecidableEq

/-- Is the event a submit click (`page.click("#order")`)? -/
def isSubmitClick : Event → Bool
  | Event.clickSubmit => true
  | _ => false

/-- Is the event an archive step? -/
def isArchiveEv : Event → Bool
  | Event.archiveZip _ _ => true
  | _ => false

/-- Is the event a receipt-PDF save? -/
def isReceiptEv : Event → Bool
  | Event.receiptSaved _ _ => true
  | _ => false

/-- Is the event a screenshot save? -/
def isScreenshotEv : Event → Bool
  | Event.screenshotSaved _ => true
  | _ => false

/-- Is the event the head-selection (first form-fill step of a row)? -/
def isSelectHeadEv : Event → Bool
  | Event.selectHead _ => true
  | _ => false

/-! ## Constants (`tasks.py` lines 20-32) -/

/-- `ROBOT_ORDER_URL` -/
def ROBOT_ORDER_URL : String := "https://robotsparebinindustries.com/#/robot-order"

/-- `ORDERS_CSV_URL` -/
def ORDERS_CSV_URL : String := "https://robotsparebinindustries.com/orders.csv"

/-- `ORDERS_CSV_FILE`: the download target in the working directory. -/
def ORDERS_CSV_FILE : Loc := ⟨".", "orders.csv"⟩

/-- `SCREENSHOTS_DIR = Path("output/orders_screenshots")` -/
def SCREENSHOTS_DIR : String := "output/orders_screenshots"

/-- `RECEIPTS_DIR = Path("output/receipt_pdf")` -/
def RECEIPTS_DIR : String := "output/receipt_pdf"

/-- `ARCHIVE_PATH = Path("output/receipts_zip.zip")` -/
def ARCHIVE_PATH : Loc := ⟨"output", "receipts_zip.zip"⟩

/-- `MAX_RETRIES = 10` -/
def MAX_RETRIES : Nat := 10

/-- `MODAL_TIMEOUT = 1000` (milliseconds) -/
def MODAL_TIMEOUT : Nat := 1000

/-- `ERROR_TIMEOUT = 2000` (milliseconds) -/
def ERROR_TIMEOUT : Nat := 2000

/-! ## Data model -/

/-- One CSV row, as consumed by `fill_and_submit_orders` /
`screenshot_robot` / `store_receipt_as_pdf` (`order["Order number"]`,
`order["Head"]`, `order["Body"]`, `order["Legs"]`, `order["Address"]`). -/
structure Order where
  orderNumber : String
  head : String
  body : String
  legs : String
  address : String
deriving Repr, DecidableEq

/-- The screenshot path for an order:
`SCREENSHOTS_DIR / f"screenshot_{order_no}.png"` (`screenshot_robot`). -/
def screenshotLoc (o : Order) : Loc :=
  ⟨SCREENSHOTS_DIR, "screenshot_" ++ o.orderNumber ++ ".png"⟩

/-- The receipt path for an order:
`RECEIPTS_DIR / f"receipt_{order_no}.pdf"` (`store_receipt_as_pdf`). -/
def receiptLoc (o : Order) : Loc :=
  ⟨RECEIPTS_DIR, "receipt_" ++ o.orderNumber ++ ".pdf"⟩

/-! ## `has_server_error` (`tasks.py` lines 227-238)

```
try:
    return alerts.first.is_visible(timeout=timeout)
except (TimeoutError, Exception):
    return False
```

The outcome of `alerts.first.is_visible(timeout=timeout)` is supplied by
the environment as a `PyResult Bool` (a value, or a raised exception). -/

/-- `has_server_error`: returns the visibility result, or `False` when
the check raised (all exceptions are caught). -/
def has_server_error (visCheck : PyResult Bool) : Bool :=
  match visCheck with
  | Except.ok b => b
  | Except.error _ => false

/-! ## `submit_order_with_retry` (`tasks.py` lines 207-225)

```
for attempt in range(max_retries):
    page.click("#order")
    time.sleep(0.3)
    if not has_server_error():
        ...
        return True
    ...
raise Exception(f"Order failed after {max_retries} retry attempts")
```

`check attempt` is the outcome of the alert-visibility query performed by
`has_server_error()` during attempt number `attempt` (0-based). -/

/-- The exception raised on retry exhaustion. -/
def exhaustionErr (maxRetries : Nat) : PyErr :=
  ⟨"Order failed after " ++ toString maxRetries ++ " retry attempts"⟩

/-- The body of the `for attempt in range(max_retries)` loop, from loop
counter `attempt` with `fuel = max_retries - attempt` iterations left.
Returns the event trace and the Python outcome (`return True` or the
raised exhaustion exception). -/
def submitAttempts (check : Nat → PyResult Bool) (maxRetries : Nat) :
    Nat → Nat → List Event × PyResult Bool
  | _, 0 => ([], Except.error (exhaustionErr maxRetries))
  | attempt, fuel + 1 =>
      if has_server_error (check attempt) then
        let r := submitAttempts check maxRetries (attempt + 1) fuel
        (Event.clickSubmit :: Event.sleep300 :: r.1, r.2)
      else
        ([Event.clickSubmit, Event.sleep300], Except.ok true)

/-- `submit_order_with_retry(max_retries)`. -/
def submit_order_with_retry (check : Nat → PyResult Bool)
    (maxRetries : Nat) : List Event × PyResult Bool :=
  submitAttempts check maxRetries 0 maxRetries

/-! ## `close_annoying_modal` (`tasks.py` lines 126-136)

```
modal = page.locator(".modal-dialog")
try:
    if modal.first.is_visible(timeout=timeout):
        page.click("//button[text()='OK']")
except Exception:
    pass
```

`isVisible timeout` is the outcome of `modal.first.is_visible(timeout)`;
`okClick` the outcome of the OK click.  All exceptions are caught. -/

/-- `close_annoying_modal(timeout)`: trace of clicks performed and
Python outcome (always a normal return). -/
def close_annoying_modal (isVisible : Nat → PyResult Bool)
    (okClick : PyResult Unit) (timeout : Nat) : List Event × PyResult Unit :=
  match isVisible timeout with
  | Except.ok true =>
      match okClick with
      | Except.ok _ => ([Event.clickOk], Except.ok ())
      | Except.error _ => ([Event.clickOk], Except.ok ())
  | Except.ok false => ([], Except.ok ())
  | Except.error _ => ([], Except.ok ())

/-! ## `screenshot_robot` (`tasks.py` lines 195-205) -/

/-- `screenshot_robot(order)`: saves the preview screenshot to
`SCREENSHOTS_DIR / f"screenshot_{order_no}.png"`. -/
def screenshot_robot (o : Order) (fs : Fs) : List Event × Fs :=
  ([Event.screenshotSaved (screenshotLoc o)],
   fsWrite fs (screenshotLoc o) FileData.png)

/-! ## `store_receipt_as_pdf` (`tasks.py` lines 240-275) -/

/-- The f-string HTML document of `store_receipt_as_pdf`, with the
receipt markup and the screenshot path substituted in. -/
def full_html (receipt_html screenshot_path : String) : String :=
  "\n    <!DOCTYPE html>\n        <html>\n        <head>\n            <meta charset=\"UTF-8\">\n        </head>\n        <body>\n            <div>\n                "
    ++ receipt_html ++
    "\n            </div>\n            <div style=\" margin:100px 400px; display:flex; justify-content:center; max-width:100%; width:200px; height:auto;\"\">\n                <img src=\""
    ++ screenshot_path ++
    "\" alt=\"Robot Preview\">\n            </div>\n        </body>\n        </html>\n    "

/-- `store_receipt_as_pdf(order)`: renders `full_html` (with the
hardcoded flat screenshot path `output/orders_screenshots/screenshot_{n}.png`)
to a PDF at `RECEIPTS_DIR / f"receipt_{order_no}.pdf"`.
`receipt_html` is `page.locator("#receipt").inner_html()`. -/
def store_receipt_as_pdf (o : Order) (receipt_html : String) (fs : Fs) :
    List Event × Fs :=
  let screenshot_path :=
    "output/orders_screenshots/screenshot_" ++ o.orderNumber ++ ".png"
  let html := full_html receipt_html screenshot_path
  ([Event.receiptSaved (receiptLoc o) html],
   fsWrite fs (receiptLoc o) (FileData.pdfFile html))

/-! ## `fill_and_submit_orders` (`tasks.py` lines 138-168) -/

/-- The page/server behavior relevant to one row:
the per-attempt alert-visibility outcomes seen by `has_server_error`
inside the retry loop, the `#receipt` markup shown after success, and
the post-submit modal behavior. -/
structure RowEnv where
  submitCheck : Nat → PyResult Bool
  receiptHtml : String
  modalVisible : Nat → PyResult Bool
  modalClick : PyResult Unit

/-- `fill_and_submit_orders(order)`: fill the four fields, preview,
screenshot, submit with retry, store the receipt, click
`#order-another`, close the post-order modal.  A raised exception
propagates (aborting before the receipt is stored). -/
def fill_and_submit_orders (env : RowEnv) (o : Order) (fs : Fs) :
    List Event × Fs × PyResult Unit :=
  let fillEvs := [Event.selectHead o.head, Event.checkBody o.body,
                  Event.fillLegs o.legs, Event.fillAddress o.address,
                  Event.clickPreview]
  let ss := screenshot_robot o fs
  let sub := submit_order_with_retry env.submitCheck MAX_RETRIES
  match sub.2 with
  | Except.error e => (fillEvs ++ ss.1 ++ sub.1, ss.2, Except.error e)
  | Except.ok _ =>
      let rc := store_receipt_as_pdf o env.receiptHtml ss.2
      let cm := close_annoying_modal env.modalVisible env.modalClick MODAL_TIMEOUT
      (fillEvs ++ ss.1 ++ sub.1 ++ rc.1 ++ [Event.clickOrderAnother] ++ cm.1,
       rc.2, cm.2)

/-! ## `download_csv` (`tasks.py` lines 170-177)

`http.download(url=ORDERS_CSV_URL, overwrite=True)` saves the resource
to the URL's basename (`orders.csv`) in the working directory,
replacing any existing file (the `RPA.HTTP` contract for
`overwrite=True`).  `fetch url` is the resource's current content. -/

/-- `download_csv()`: overwriting download of the orders CSV. -/
def download_csv (fetch : String → String) (fs : Fs) : List Event × Fs :=
  ([Event.httpDownload ORDERS_CSV_URL],
   fsWrite fs ORDERS_CSV_FILE (FileData.csvData (fetch ORDERS_CSV_URL)))

/-! ## `get_orders_from_csv` (`tasks.py` lines 179-193) -/

/-- The text of the downloaded CSV file, as read back by
`tables.read_table_from_csv(ORDERS_CSV_FILE)`. -/
def csvContent (fs : Fs) : String :=
  match fsLookup fs ORDERS_CSV_FILE with
  | some (FileData.csvData s) => s
  | _ => ""

/-- The `for row in table:` loop of `get_orders_from_csv`: process the
rows in order, stopping at the first raised exception.  `envs i` is the
page/server behavior while row number `i` (0-based over the whole feed)
is processed. -/
def processRows (envs : Nat → RowEnv) :
    List Order → Nat → Fs → List Event × Fs × PyResult Unit
  | [], _, fs => ([], fs, Except.ok ())
  | o :: rest, idx, fs =>
      let r := fill_and_submit_orders (envs idx) o fs
      match r.2.2 with
      | Except.error e => (r.1, r.2.1, Except.error e)
      | Except.ok _ =>
          let rs := processRows envs rest (idx + 1) r.2.1
          (r.1 ++ rs.1, rs.2.1, rs.2.2)

/-- `get_orders_from_csv()`: parse the downloaded CSV into rows
(`Tables.read_table_from_csv`, modelled by the opaque `parse` supplied
by the environment) and process each row. -/
def get_orders_from_csv (parse : String → List Order)
    (envs : Nat → RowEnv) (fs : Fs) : List Event × Fs × PyResult Unit :=
  processRows envs (parse (csvContent fs)) 0 fs

/-! ## `archive_receipts` (`tasks.py` lines 278-284) -/

/-- `archive_receipts()`: bundle every file currently in `RECEIPTS_DIR`
into a single zip at `ARCHIVE_PATH`, overwriting any existing archive
(`Archive.archive_folder_with_zip` contract). -/
def archive_receipts (fs : Fs) : List Event × Fs :=
  ([Event.archiveZip RECEIPTS_DIR ARCHIVE_PATH],
   fsWrite fs ARCHIVE_PATH (FileData.zipData (filesInDir RECEIPTS_DIR fs)))

/-! ## `order_robots_from_RobotSpareBin` (`tasks.py` lines 81-117) -/

/-- The whole environment of one run: the initial modal behavior, the
HTTP resource contents, the CSV parser, and the per-row page/server
behavior. -/
structure RunEnv where
  initModalVisible : Nat → PyResult Bool
  initModalClick : PyResult Unit
  fetch : String → String
  parse : String → List Order
  rowEnv : Nat → RowEnv

/-- The main task: open the site, close the initial modal, download the
CSV, process every order, then archive the receipts.  A raised
exception anywhere propagates and ends the run before the later steps. -/
def order_robots_from_RobotSpareBin (env : RunEnv) (fs0 : Fs) :
    List Event × Fs × PyResult Unit :=
  let openEvs := [Event.gotoUrl ROBOT_ORDER_URL]
  let cm := close_annoying_modal env.initModalVisible env.initModalClick MODAL_TIMEOUT
  let dl := download_csv env.fetch fs0
  let pr := get_orders_from_csv env.parse env.rowEnv dl.2
  match pr.2.2 with
  | Except.error e =>
      (openEvs ++ cm.1 ++ dl.1 ++ pr.1, pr.2.1, Except.error e)
  | Except.ok _ =>
      let ar := archive_receipts pr.2.1
      (openEvs ++ cm.1 ++ dl.1 ++ pr.1 ++ ar.1, ar.2, Except.ok ())

/-- Row-level success of the retry loop: `submit_order_with_retry`
returns `True` under this row's server behavior. -/
def RowSucceeds (env : RowEnv) : Prop :=
  (submit_order_with_retry env.submitCheck MAX_RETRIES).2 = Except.ok true

instance {ε α : Type} [DecidableEq ε] [DecidableEq α] :
    DecidableEq (Except ε α)
  | Except.ok a, Except.ok b =>
      if h : a = b then isTrue (by rw [h]) else
        isFalse (fun hc => h (Except.ok.inj hc))
  | Except.ok _, Except.error _ => isFalse (fun hc => Except.noConfusion hc)
  | Except.error _, Except.ok _ => isFalse (fun hc => Except.noConfusion hc)
  | Except.error a, Except.error b =>
      if h : a = b then isTrue (by rw [h]) else
        isFalse (fun hc => h (Except.error.inj hc))

instance (env : RowEnv) : Decidable (RowSucceeds env) := by
  unfold RowSucceeds; infer_instance

/-- The files written by a run of successful rows starting at row index
`idx`: one screenshot and one receipt per row, in processing order. -/
def rowFiles (envs : Nat → RowEnv) : List Order → Nat → Fs
  | [], _ => []
  | o :: rest, idx =>
      (screenshotLoc o, FileData.png)
        :: (receiptLoc o,
             FileData.pdfFile (full_html (envs idx).receiptHtml
               ("output/orders_screenshots/screenshot_"
                 ++ o.orderNumber ++ ".png")))
        :: rowFiles envs rest (idx + 1)

/-! ## Concrete test environments (used by the witness theorems) -/

/-- Test order row number `"1"`. -/
def wOrder1 : Order := ⟨"1", "1", "2", "L-1", "Addr 1"⟩

/-- Test order row number `"2"`. -/
def wOrder2 : Order := ⟨"2", "3", "4", "L-2", "Addr 2"⟩

/-- A row environment whose server never shows the error alert. -/
def wRowOk : RowEnv :=
  ⟨fun _ => Except.ok false, "<div>receipt</div>",
   fun _ => Except.ok false, Except.ok ()⟩

/-- A row environment whose server always shows the error alert. -/
def wRowBad : RowEnv :=
  ⟨fun _ => Except.ok true, "<div>receipt</div>",
   fun _ => Except.ok false, Except.ok ()⟩

/-- A run environment: two rows, a server that never errors. -/
def wEnvOk : RunEnv :=
  ⟨fun _ => Except.ok true, Except.ok (), fun _ => "csv-text",
   fun _ => [wOrder1, wOrder2], fun _ => wRowOk⟩

/-- A run environment: one row whose submit always errors. -/
def wEnvBad : RunEnv :=
  ⟨fun _ => Except.ok true, Except.ok (), fun _ => "csv-text",
   fun _ => [wOrder1], fun _ => wRowBad⟩

/-! ## Helper lemmas: the retry loop -/

lemma submitAttempts_ok (check : Nat → PyResult Bool) (m : Nat) :
    ∀ (k attempt fuel : Nat), k < fuel →
    (∀ i, i < k → has_server_error (check (attempt + i)) = true) →
    has_server_error (check (attempt + k)) = false →
    (submitAttempts check m attempt fuel).2 = Except.ok true ∧
    (submitAttempts check m attempt fuel).1.countP isSubmitClick = k + 1 := by
  intro k
  induction k with
  | zero =>
      intro attempt fuel hk _ hok
      cases fuel with
      | zero => omega
      | succ f =>
          simp only [Nat.add_zero] at hok
          simp [submitAttempts, hok, List.countP_cons, isSubmitClick]
  | succ k ih =>
      intro attempt fuel hk herr hok
      cases fuel with
      | zero => omega
      | succ f =>
          have h0 : has_server_error (check attempt) = true := by
            have := herr 0 (Nat.succ_pos k)
            simpa using this
          have ihr := ih (attempt + 1) f (by omega)
            (fun i hi => by
              have := herr (i + 1) (by omega)
              simpa [Nat.add_assoc, Nat.add_comm 1 i] using this)
            (by
              have : attempt + 1 + k = attempt + (k + 1) := by omega
              rw [this]; exact hok)
          simp only [submitAttempts, h0, if_true]
          refine ⟨ihr.1, ?_⟩
          simp [List.countP_cons, isSubmitClick, ihr.2]


lemma submitAttempts_allfail (check : Nat → PyResult Bool) (m : Nat) :
    ∀ (fuel attempt : Nat),
    (∀ i, i < fuel → has_server_error (check (attempt + i)) = true) →
    (submitAttempts check m attempt fuel).2 =
      Except.error (exhaustionErr m) ∧
    (submitAttempts check m attempt fuel).1.countP isSubmitClick = fuel := by
  intro fuel
  induction fuel with
  | zero => intro attempt _; simp [submitAttempts]
  | succ f ih =>
      intro attempt herr
      have h0 : has_server_error (check attempt) = true := by
        have := herr 0 (Nat.succ_pos f)
        simpa using this
      have ihr := ih (attempt + 1)
        (fun i hi => by
          have := herr (i + 1) (by omega)
          simpa [Nat.add_assoc, Nat.add_comm 1 i] using this)
      simp only [submitAttempts, h0, if_true]
      refine ⟨ihr.1, ?_⟩
      simp [List.countP_cons, isSubmitClick, ihr.2]

/-! ## Helper lemmas: the filesystem -/

lemma fsWrite_lookup_self (fs : Fs) (p : Loc) (d : FileData) :
    fsLookup (fsWrite fs p d) p = some d := by
  induction fs with
  | nil => simp [fsWrite, fsLookup]
  | cons qe rest ih =>
      obtain ⟨q, e⟩ := qe
      by_cases h : q = p
      · simp [fsWrite, fsLookup, h]
      · simp [fsWrite, fsLookup, h, ih]

lemma fsWrite_lookup_ne (fs : Fs) (p q : Loc) (d : FileData)
    (h : q ≠ p) : fsLookup (fsWrite fs p d) q = fsLookup fs q := by
  induction fs with
  | nil => simp [fsWrite, fsLookup, Ne.symm h]
  | cons re rest ih =>
      obtain ⟨r, e⟩ := re
      by_cases hr : r = p
      · subst hr
        simp [fsWrite, fsLookup, Ne.symm h]
      · simp [fsWrite, fsLookup, hr, ih]

lemma fsWrite_fresh (fs : Fs) (p : Loc) (d : FileData)
    (h : fsLookup fs p = none) : fsWrite fs p d = fs ++ [(p, d)] := by
  induction fs with
  | nil => simp [fsWrite]
  | cons qe rest ih =>
      obtain ⟨q, e⟩ := qe
      by_cases hq : q = p
      · simp [fsLookup, hq] at h
      · simp only [fsLookup, if_neg hq] at h
        simp [fsWrite, hq, ih h]

lemma filesInDir_append (dir : String) (fs gs : Fs) :
    filesInDir dir (fs ++ gs) = filesInDir dir fs ++ filesInDir dir gs := by
  simp [filesInDir, List.filter_append]

/-! ## Helper lemmas: strings and paths -/

lemma strAppend_inj_left (a x y : String) (h : a ++ x = a ++ y) : x = y := by
  apply String.ext
  have h2 := congrArg String.data h
  rw [String.data_append, String.data_append] at h2
  exact List.append_cancel_left h2

lemma strAppend_inj_right (s x y : String) (h : x ++ s = y ++ s) : x = y := by
  apply String.ext
  have h2 := congrArg String.data h
  rw [String.data_append, String.data_append] at h2
  exact List.append_cancel_right h2

lemma receiptLoc_inj (o o' : Order)
    (h : receiptLoc o = receiptLoc o') : o.orderNumber = o'.orderNumber := by
  have hn : "receipt_" ++ o.orderNumber ++ ".pdf"
      = "receipt_" ++ o'.orderNumber ++ ".pdf" := congrArg Loc.name h
  exact strAppend_inj_left _ _ _ (strAppend_inj_right _ _ _ hn)

lemma screenshotLoc_inj (o o' : Order)
    (h : screenshotLoc o = screenshotLoc o') :
    o.orderNumber = o'.orderNumber := by
  have hn : "screenshot_" ++ o.orderNumber ++ ".png"
      = "screenshot_" ++ o'.orderNumber ++ ".png" := congrArg Loc.name h
  exact strAppend_inj_left _ _ _ (strAppend_inj_right _ _ _ hn)

lemma screenshotLoc_ne_receiptLoc (o o' : Order) :
    screenshotLoc o ≠ receiptLoc o' := by
  intro h
  have : SCREENSHOTS_DIR = RECEIPTS_DIR := congrArg Loc.dir h
  simp [SCREENSHOTS_DIR, RECEIPTS_DIR] at this

lemma screenshotLoc_ne_archive (o : Order) :
    screenshotLoc o ≠ ARCHIVE_PATH := by
  intro h
  have : SCREENSHOTS_DIR = "output" := congrArg Loc.dir h
  simp [SCREENSHOTS_DIR] at this

lemma receiptLoc_ne_archive (o : Order) : receiptLoc o ≠ ARCHIVE_PATH := by
  intro h
  have : RECEIPTS_DIR = "output" := congrArg Loc.dir h
  simp [RECEIPTS_DIR] at this

lemma screenshotLoc_ne_csv (o : Order) :
    screenshotLoc o ≠ ORDERS_CSV_FILE := by
  intro h
  have : SCREENSHOTS_DIR = "." := congrArg Loc.dir h
  simp [SCREENSHOTS_DIR] at this

lemma receiptLoc_ne_csv (o : Order) : receiptLoc o ≠ ORDERS_CSV_FILE := by
  intro h
  have : RECEIPTS_DIR = "." := congrArg Loc.dir h
  simp [RECEIPTS_DIR] at this

/-! ## Claims about the retry loop -/

/-- Claim C1: for every `k < MAX_RETRIES`, if the server-error alert is
observed after each of the first `k` submit clicks and not after the
`(k+1)`-th, then `submit_order_with_retry` performs exactly `k+1` submit
clicks, stops retrying immediately, and returns success (`True`). -/
theorem retry_succeeds_after_k_errors (check : Nat → PyResult Bool)
    (k : Nat) (hk : k < MAX_RETRIES)
    (herr : ∀ i, i < k → has_server_error (check i) = true)
    (hok : has_server_error (check k) = false) :
    (submit_order_with_retry check MAX_RETRIES).2 = Except.ok true ∧
    (submit_order_with_retry check MAX_RETRIES).1.countP isSubmitClick
      = k + 1 := by
  have := submitAttempts_ok check MAX_RETRIES k 0 MAX_RETRIES hk
    (fun i hi => by simpa using herr i hi) (by simpa using hok)
  exact this

/-- Witness for C1 at `k = 3`: three errors, then success, gives exactly
four submit clicks and a `True` return. -/
theorem retry_succeeds_after_k_errors_witness :
    (3 < MAX_RETRIES ∧
      (∀ i, i < 3 → has_server_error
        (if i < 3 then Except.ok true else Except.ok false) = true) ∧
      has_server_error
        (if 3 < 3 then (Except.ok true : PyResult Bool) else Except.ok false)
        = false) ∧
    (submit_order_with_retry
        (fun i => if i < 3 then Except.ok true else Except.ok false)
        MAX_RETRIES).2 = Except.ok true ∧
    (submit_order_with_retry
        (fun i => if i < 3 then Except.ok true else Except.ok false)
        MAX_RETRIES).1.countP isSubmitClick = 3 + 1 :=
  ⟨⟨by decide, by decide, by decide⟩,
   retry_succeeds_after_k_errors
     (fun i => if i < 3 then Except.ok true else Except.ok false) 3
     (by decide) (by decide) (by decide)⟩

/-- Claim C2: if the server-error alert is observed after every submit
click, `submit_order_with_retry` performs exactly `MAX_RETRIES` (10)
submit clicks, never an eleventh, and raises the exception
`Order failed after 10 retry attempts`, whose message names the attempt
count. -/
theorem retry_exhaustion_after_max_errors (check : Nat → PyResult Bool)
    (herr : ∀ i, i < MAX_RETRIES → has_server_error (check i) = true) :
    (submit_order_with_retry check MAX_RETRIES).2 =
      Except.error
        ⟨"Order failed after " ++ toString MAX_RETRIES ++ " retry attempts"⟩ ∧
    (submit_order_with_retry check MAX_RETRIES).1.countP isSubmitClick
      = MAX_RETRIES ∧ MAX_RETRIES = 10 := by
  have := submitAttempts_allfail check MAX_RETRIES MAX_RETRIES 0
    (fun i hi => by simpa using herr i hi)
  exact ⟨this.1, this.2, rfl⟩

/-- Witness for C2: a server that always shows the error alert. -/
theorem retry_exhaustion_after_max_errors_witness :
    (∀ i, i < MAX_RETRIES →
      has_server_error (Except.ok true : PyResult Bool) = true) ∧
    (submit_order_with_retry (fun _ => Except.ok true) MAX_RETRIES).2 =
      Except.error
        ⟨"Order failed after " ++ toString MAX_RETRIES ++ " retry attempts"⟩ ∧
    (submit_order_with_retry (fun _ => Except.ok true)
        MAX_RETRIES).1.countP isSubmitClick = MAX_RETRIES ∧
    MAX_RETRIES = 10 :=
  ⟨by decide,
   retry_exhaustion_after_max_errors (fun _ => Except.ok true)
     (fun i _ => rfl)⟩

/-! ## Claims about `close_annoying_modal` and `has_server_error` -/

/-- Claim C6: for every timeout, when no modal is visible within it
(`is_visible` returns `False` or raises), `close_annoying_modal`
performs no click, raises no exception, and leaves the page unchanged
(its trace is empty). -/
theorem modal_dismiss_noop_when_absent (isVisible : Nat → PyResult Bool)
    (okClick : PyResult Unit) (timeout : Nat)
    (h : isVisible timeout ≠ Except.ok true) :
    close_annoying_modal isVisible okClick timeout = ([], Except.ok ()) := by
  unfold close_annoying_modal
  match hv : isVisible timeout with
  | Except.ok true => exact absurd hv h
  | Except.ok false => rfl
  | Except.error e => rfl

/-- Witness for C6: the visibility check itself raising a timeout
exception is treated as modal-absent. -/
theorem modal_dismiss_noop_when_absent_witness :
    ((fun _ : Nat => (Except.error ⟨"Timeout"⟩ : PyResult Bool))
        MODAL_TIMEOUT ≠ Except.ok true) ∧
    close_annoying_modal (fun _ => Except.error ⟨"Timeout"⟩)
        (Except.ok ()) MODAL_TIMEOUT = ([], Except.ok ()) :=
  ⟨by decide,
   modal_dismiss_noop_when_absent (fun _ => Except.error ⟨"Timeout"⟩)
     (Except.ok ()) MODAL_TIMEOUT (by decide)⟩

lemma close_modal_snd (isVisible : Nat → PyResult Bool)
    (okClick : PyResult Unit) (timeout : Nat) :
    (close_annoying_modal isVisible okClick timeout).2 = Except.ok () := by
  unfold close_annoying_modal
  match isVisible timeout with
  | Except.ok true =>
      match okClick with
      | Except.ok _ => rfl
      | Except.error _ => rfl
  | Except.ok false => rfl
  | Except.error _ => rfl

/-- Claim C9: `close_annoying_modal` never propagates an exception: for
every behavior of the visibility check and of the OK click (including a
failing click on a visible modal), it returns normally. -/
theorem modal_dismiss_never_raises (isVisible : Nat → PyResult Bool)
    (okClick : PyResult Unit) (timeout : Nat) :
    (close_annoying_modal isVisible okClick timeout).2 = Except.ok () :=
  close_modal_snd isVisible okClick timeout

/-- Claim C10: `has_server_error` is total: it returns the checked
visibility on a normal result and `False` whenever the check raises, so
a raising check makes the retry loop treat the attempt as a success
(one click, `True` returned, for any positive retry budget). -/
theorem server_error_check_total (e : PyErr) (b : Bool)
    (check : Nat → PyResult Bool) (m : Nat) (hm : 0 < m)
    (h0 : check 0 = Except.error e) :
    has_server_error (Except.error e) = false ∧
    has_server_error (Except.ok b) = b ∧
    (submit_order_with_retry check m).2 = Except.ok true ∧
    (submit_order_with_retry check m).1.countP isSubmitClick = 1 := by
  refine ⟨rfl, rfl, ?_⟩
  cases m with
  | zero => omega
  | succ f =>
      have hzero : has_server_error (check 0) = false := by
        rw [h0]; rfl
      unfold submit_order_with_retry
      simp [submitAttempts, hzero, List.countP_cons, isSubmitClick]

/-- Witness for C10: a check that raises on the first attempt. -/
theorem server_error_check_total_witness :
    (0 < MAX_RETRIES ∧
      (fun _ : Nat => (Except.error ⟨"boom"⟩ : PyResult Bool)) 0 =
        Except.error ⟨"boom"⟩) ∧
    has_server_error (Except.error ⟨"boom"⟩) = false ∧
    has_server_error (Except.ok true) = true ∧
    (submit_order_with_retry (fun _ => Except.error ⟨"boom"⟩)
        MAX_RETRIES).2 = Except.ok true ∧
    (submit_order_with_retry (fun _ => Except.error ⟨"boom"⟩)
        MAX_RETRIES).1.countP isSubmitClick = 1 :=
  ⟨⟨by decide, rfl⟩,
   server_error_check_total ⟨"boom"⟩ true (fun _ => Except.error ⟨"boom"⟩)
     MAX_RETRIES (by decide) rfl⟩

/-! ## Claim about `download_csv` -/

lemma fsWrite_idem (fs : Fs) (p : Loc) (d : FileData) :
    fsWrite (fsWrite fs p d) p d = fsWrite fs p d := by
  induction fs with
  | nil => simp [fsWrite]
  | cons qe rest ih =>
      obtain ⟨q, e⟩ := qe
      by_cases h : q = p
      · simp [fsWrite, h]
      · simp [fsWrite, h, ih]

/-- Claim C7: the CSV download is idempotent on the filesystem: running
`download_csv` twice leaves exactly the filesystem of a single run
(the copy is overwritten, not appended or duplicated), and the
downloaded file holds the resource's content. -/
theorem download_csv_idempotent (fetch : String → String) (fs : Fs) :
    (download_csv fetch (download_csv fetch fs).2).2 =
      (download_csv fetch fs).2 ∧
    fsLookup (download_csv fetch fs).2 ORDERS_CSV_FILE =
      some (FileData.csvData (fetch ORDERS_CSV_URL)) := by
  constructor
  · simp [download_csv, fsWrite_idem]
  · simp [download_csv, fsWrite_lookup_self]

/-! ## Helper lemmas: event traces of the sub-steps -/

lemma close_modal_events (isVisible : Nat → PyResult Bool)
    (okClick : PyResult Unit) (timeout : Nat) :
    ∀ e ∈ (close_annoying_modal isVisible okClick timeout).1,
      e = Event.clickOk := by
  unfold close_annoying_modal
  match isVisible timeout with
  | Except.ok true =>
      match okClick with
      | Except.ok _ => intro e he; simpa using he
      | Except.error _ => intro e he; simpa using he
  | Except.ok false => intro e he; simp at he
  | Except.error _ => intro e he; simp at he

lemma submitAttempts_events (check : Nat → PyResult Bool) (m : Nat) :
    ∀ (fuel attempt : Nat),
    ∀ e ∈ (submitAttempts check m attempt fuel).1,
      e = Event.clickSubmit ∨ e = Event.sleep300 := by
  intro fuel
  induction fuel with
  | zero => intro attempt e he; simp [submitAttempts] at he
  | succ f ih =>
      intro attempt e he
      by_cases h : has_server_error (check attempt)
      · simp only [submitAttempts, h, if_true, List.mem_cons] at he
        rcases he with h1 | h1 | h1
        · exact Or.inl h1
        · exact Or.inr h1
        · exact ih (attempt + 1) e h1
      · simp only [submitAttempts, h, if_false, Bool.false_eq_true,
          List.mem_cons, List.not_mem_nil, or_false] at he
        rcases he with h1 | h1
        · exact Or.inl h1
        · exact Or.inr h1

lemma countP_submit_zero (check : Nat → PyResult Bool) (m : Nat)
    (p : Event → Bool) (h1 : p Event.clickSubmit = false)
    (h2 : p Event.sleep300 = false) (fuel attempt : Nat) :
    (submitAttempts check m attempt fuel).1.countP p = 0 := by
  rw [List.countP_eq_zero]
  intro e he
  rcases submitAttempts_events check m fuel attempt e he with h | h <;>
    simp [h, h1, h2]

lemma countP_modal_zero (isVisible : Nat → PyResult Bool)
    (okClick : PyResult Unit) (timeout : Nat) (p : Event → Bool)
    (h1 : p Event.clickOk = false) :
    (close_annoying_modal isVisible okClick timeout).1.countP p = 0 := by
  rw [List.countP_eq_zero]
  intro e he
  rw [close_modal_events isVisible okClick timeout e he]
  simp [h1]

/-! ## Helper lemmas: one row on the success / failure path -/

lemma fill_success_eq (env : RowEnv) (o : Order) (fs : Fs)
    (h : RowSucceeds env) :
    fill_and_submit_orders env o fs =
      ([Event.selectHead o.head, Event.checkBody o.body,
        Event.fillLegs o.legs, Event.fillAddress o.address,
        Event.clickPreview, Event.screenshotSaved (screenshotLoc o)]
        ++ (submit_order_with_retry env.submitCheck MAX_RETRIES).1
        ++ [Event.receiptSaved (receiptLoc o)
              (full_html env.receiptHtml
                ("output/orders_screenshots/screenshot_"
                  ++ o.orderNumber ++ ".png")),
            Event.clickOrderAnother]
        ++ (close_annoying_modal env.modalVisible env.modalClick
              MODAL_TIMEOUT).1,
       fsWrite (fsWrite fs (screenshotLoc o) FileData.png) (receiptLoc o)
         (FileData.pdfFile (full_html env.receiptHtml
           ("output/orders_screenshots/screenshot_"
             ++ o.orderNumber ++ ".png"))),
       Except.ok ()) := by
  unfold RowSucceeds at h
  simp only [fill_and_submit_orders, screenshot_robot, store_receipt_as_pdf,
    h, close_modal_snd]
  simp

lemma fill_fail_eq (env : RowEnv) (o : Order) (fs : Fs)
    (h : ∀ i, i < MAX_RETRIES →
      has_server_error (env.submitCheck i) = true) :
    fill_and_submit_orders env o fs =
      ([Event.selectHead o.head, Event.checkBody o.body,
        Event.fillLegs o.legs, Event.fillAddress o.address,
        Event.clickPreview, Event.screenshotSaved (screenshotLoc o)]
        ++ (submit_order_with_retry env.submitCheck MAX_RETRIES).1,
       fsWrite fs (screenshotLoc o) FileData.png,
       Except.error (exhaustionErr MAX_RETRIES)) := by
  have hs := (submitAttempts_allfail env.submitCheck MAX_RETRIES MAX_RETRIES 0
    (fun i hi => by simpa using h i hi)).1
  have hs' : (submit_order_with_retry env.submitCheck MAX_RETRIES).2 =
      Except.error (exhaustionErr MAX_RETRIES) := hs
  simp only [fill_and_submit_orders, screenshot_robot, hs']
  simp

lemma countP_retry_zero (check : Nat → PyResult Bool) (m : Nat)
    (p : Event → Bool) (h1 : p Event.clickSubmit = false)
    (h2 : p Event.sleep300 = false) :
    (submit_order_with_retry check m).1.countP p = 0 :=
  countP_submit_zero check m p h1 h2 m 0

lemma fill_success_counts (env : RowEnv) (o : Order) (fs : Fs)
    (h : RowSucceeds env) :
    (fill_and_submit_orders env o fs).1.countP isArchiveEv = 0 ∧
    (fill_and_submit_orders env o fs).1.countP isReceiptEv = 1 ∧
    (fill_and_submit_orders env o fs).1.countP isScreenshotEv = 1 ∧
    (fill_and_submit_orders env o fs).1.countP isSelectHeadEv = 1 := by
  rw [fill_success_eq env o fs h]
  refine ⟨?_, ?_, ?_, ?_⟩ <;>
    simp [List.countP_append, List.countP_cons, isArchiveEv, isReceiptEv,
      isScreenshotEv, isSelectHeadEv, countP_retry_zero, countP_modal_zero]

lemma fill_fail_counts (env : RowEnv) (o : Order) (fs : Fs)
    (h : ∀ i, i < MAX_RETRIES →
      has_server_error (env.submitCheck i) = true) :
    (fill_and_submit_orders env o fs).1.countP isArchiveEv = 0 ∧
    (fill_and_submit_orders env o fs).1.countP isReceiptEv = 0 ∧
    (fill_and_submit_orders env o fs).1.countP isScreenshotEv = 1 ∧
    (fill_and_submit_orders env o fs).1.countP isSelectHeadEv = 1 := by
  rw [fill_fail_eq env o fs h]
  refine ⟨?_, ?_, ?_, ?_⟩ <;>
    simp [List.countP_append, List.countP_cons, isArchiveEv, isReceiptEv,
      isScreenshotEv, isSelectHeadEv, countP_retry_zero]

/-! ## Helper lemmas: `rowFiles` and lookups over appends -/

lemma fsLookup_append_right_none (fs gs : Fs) (p : Loc)
    (h : fsLookup gs p = none) :
    fsLookup (fs ++ gs) p = fsLookup fs p := by
  induction fs with
  | nil => simpa using h
  | cons qe rest ih =>
      obtain ⟨q, e⟩ := qe
      by_cases hq : q = p
      · simp [fsLookup, hq]
      · simp [fsLookup, hq, ih]

lemma fsLookup_append_none (fs gs : Fs) (p : Loc)
    (h1 : fsLookup fs p = none) (h2 : fsLookup gs p = none) :
    fsLookup (fs ++ gs) p = none := by
  rw [fsLookup_append_right_none fs gs p h2]; exact h1

lemma rowFiles_filesInDir (envs : Nat → RowEnv) :
    ∀ (rows : List Order) (idx : Nat),
    filesInDir RECEIPTS_DIR (rowFiles envs rows idx) =
      rows.map (fun o => "receipt_" ++ o.orderNumber ++ ".pdf") := by
  intro rows
  induction rows with
  | nil => intro idx; simp [rowFiles, filesInDir]
  | cons o rest ih =>
      intro idx
      simp only [rowFiles, List.map_cons]
      rw [show filesInDir RECEIPTS_DIR
          ((screenshotLoc o, FileData.png) :: (receiptLoc o,
            FileData.pdfFile (full_html (envs idx).receiptHtml
              ("output/orders_screenshots/screenshot_"
                ++ o.orderNumber ++ ".png")))
            :: rowFiles envs rest (idx + 1)) =
          ("receipt_" ++ o.orderNumber ++ ".pdf")
            :: filesInDir RECEIPTS_DIR (rowFiles envs rest (idx + 1)) from ?_,
        ih (idx + 1)]
      simp [filesInDir, screenshotLoc, receiptLoc, SCREENSHOTS_DIR,
        RECEIPTS_DIR]

lemma rowFiles_lookup_none (envs : Nat → RowEnv) (p : Loc) :
    ∀ (rows : List Order) (idx : Nat),
    (∀ o, o ∈ rows → p ≠ screenshotLoc o ∧ p ≠ receiptLoc o) →
    fsLookup (rowFiles envs rows idx) p = none := by
  intro rows
  induction rows with
  | nil => intro idx _; simp [rowFiles, fsLookup]
  | cons o rest ih =>
      intro idx h
      have ho := h o (List.mem_cons_self o rest)
      have hrest : ∀ o', o' ∈ rest →
          p ≠ screenshotLoc o' ∧ p ≠ receiptLoc o' :=
        fun o' ho' => h o' (List.mem_cons_of_mem o ho')
      simp [rowFiles, fsLookup, Ne.symm ho.1, Ne.symm ho.2,
        ih (idx + 1) hrest]

/-! ## Helper lemmas: the row loop -/

lemma processRows_success (envs : Nat → RowEnv) :
    ∀ (rows : List Order) (idx : Nat) (fs : Fs),
    (∀ i, i < rows.length → RowSucceeds (envs (idx + i))) →
    (∀ o, o ∈ rows → fsLookup fs (screenshotLoc o) = none ∧
                      fsLookup fs (receiptLoc o) = none) →
    (rows.map Order.orderNumber).Nodup →
    (processRows envs rows idx fs).2.2 = Except.ok () ∧
    (processRows envs rows idx fs).2.1 = fs ++ rowFiles envs rows idx ∧
    (processRows envs rows idx fs).1.countP isArchiveEv = 0 ∧
    (processRows envs rows idx fs).1.countP isReceiptEv = rows.length ∧
    (processRows envs rows idx fs).1.countP isScreenshotEv = rows.length ∧
    (processRows envs rows idx fs).1.countP isSelectHeadEv = rows.length := by
  intro rows
  induction rows with
  | nil =>
      intro idx fs _ _ _
      simp [processRows, rowFiles]
  | cons o rest ih =>
      intro idx fs hsucc hfresh hnodup
      have hs0 : RowSucceeds (envs idx) := by
        have := hsucc 0 (by simp)
        simpa using this
      have hfo := hfresh o (List.mem_cons_self o rest)
      have hcounts := fill_success_counts (envs idx) o fs hs0
      have hfe := fill_success_eq (envs idx) o fs hs0
      have hw1 : fsWrite fs (screenshotLoc o) FileData.png
          = fs ++ [(screenshotLoc o, FileData.png)] :=
        fsWrite_fresh fs _ _ hfo.1
      have hlk2 : fsLookup (fsWrite fs (screenshotLoc o) FileData.png)
          (receiptLoc o) = none := by
        rw [fsWrite_lookup_ne fs _ _ _
          (Ne.symm (screenshotLoc_ne_receiptLoc o o))]
        exact hfo.2
      have hw2 : (fill_and_submit_orders (envs idx) o fs).2.1
          = fs ++ [(screenshotLoc o, FileData.png),
              (receiptLoc o, FileData.pdfFile (full_html
                (envs idx).receiptHtml
                ("output/orders_screenshots/screenshot_"
                  ++ o.orderNumber ++ ".png")))] := by
        rw [hfe]
        show fsWrite (fsWrite fs (screenshotLoc o) FileData.png)
            (receiptLoc o) _ = _
        rw [fsWrite_fresh _ _ _ hlk2, hw1, List.append_assoc]
        rfl
      have hnd : o.orderNumber ∉ rest.map Order.orderNumber ∧
          (rest.map Order.orderNumber).Nodup := by
        rw [List.map_cons, List.nodup_cons] at hnodup
        exact hnodup
      have hnodup1 := hnd.1
      have hnodup2 := hnd.2
      have hfresh' : ∀ o' ∈ rest,
          fsLookup ((fill_and_submit_orders (envs idx) o fs).2.1)
            (screenshotLoc o') = none ∧
          fsLookup ((fill_and_submit_orders (envs idx) o fs).2.1)
            (receiptLoc o') = none := by
        intro o' ho'
        have hnum : o'.orderNumber ≠ o.orderNumber := by
          intro hc
          exact hnodup1 (hc ▸ List.mem_map_of_mem Order.orderNumber ho')
        have hss : screenshotLoc o ≠ screenshotLoc o' := by
          intro hc
          exact hnum (screenshotLoc_inj o o' hc).symm
        have hrr : receiptLoc o ≠ receiptLoc o' := by
          intro hc
          exact hnum (receiptLoc_inj o o' hc).symm
        have hfo' := hfresh o' (List.mem_cons_of_mem o ho')
        rw [hw2]
        constructor
        · refine fsLookup_append_none _ _ _ hfo'.1 ?_
          simp [fsLookup, hss, Ne.symm (screenshotLoc_ne_receiptLoc o' o)]
        · refine fsLookup_append_none _ _ _ hfo'.2 ?_
          simp [fsLookup, hrr, screenshotLoc_ne_receiptLoc o o']
      have hsucc' : ∀ i, i < rest.length →
          RowSucceeds (envs (idx + 1 + i)) := by
        intro i hi
        have := hsucc (i + 1) (by simpa using Nat.succ_lt_succ hi)
        rwa [show idx + (i + 1) = idx + 1 + i by omega] at this
      have ihr := ih (idx + 1) ((fill_and_submit_orders (envs idx) o fs).2.1)
        hsucc' hfresh' hnodup2
      have hkey : processRows envs (o :: rest) idx fs
          = ((fill_and_submit_orders (envs idx) o fs).1
              ++ (processRows envs rest (idx + 1)
                    ((fill_and_submit_orders (envs idx) o fs).2.1)).1,
             (processRows envs rest (idx + 1)
                ((fill_and_submit_orders (envs idx) o fs).2.1)).2.1,
             (processRows envs rest (idx + 1)
                ((fill_and_submit_orders (envs idx) o fs).2.1)).2.2) := by
        have hok : (fill_and_submit_orders (envs idx) o fs).2.2
            = Except.ok () := by rw [hfe]
        simp only [processRows, hok]
      rw [hkey]
      refine ⟨ihr.1, ?_, ?_, ?_, ?_, ?_⟩
      · rw [ihr.2.1, hw2, List.append_assoc]
        simp [rowFiles]
      · simp only [List.countP_append, hcounts.1, ihr.2.2.1]
      · simp only [List.countP_append, hcounts.2.1, ihr.2.2.2.1,
          List.length_cons]
        omega
      · simp only [List.countP_append, hcounts.2.2.1, ihr.2.2.2.2.1,
          List.length_cons]
        omega
      · simp only [List.countP_append, hcounts.2.2.2, ihr.2.2.2.2.2,
          List.length_cons]
        omega

lemma processRows_abort (envs : Nat → RowEnv) :
    ∀ (pre : List Order) (bad : Order) (rest : List Order) (idx : Nat)
      (fs : Fs),
    (∀ i, i < pre.length → RowSucceeds (envs (idx + i))) →
    (∀ i, i < MAX_RETRIES →
      has_server_error ((envs (idx + pre.length)).submitCheck i) = true) →
    (∀ o, o ∈ bad :: pre → fsLookup fs (screenshotLoc o) = none ∧
                            fsLookup fs (receiptLoc o) = none) →
    ((pre ++ [bad]).map Order.orderNumber).Nodup →
    (processRows envs (pre ++ bad :: rest) idx fs).2.2 =
      Except.error (exhaustionErr MAX_RETRIES) ∧
    (processRows envs (pre ++ bad :: rest) idx fs).2.1 =
      fs ++ rowFiles envs pre idx ++ [(screenshotLoc bad, FileData.png)] ∧
    (processRows envs (pre ++ bad :: rest) idx fs).1.countP isArchiveEv
      = 0 ∧
    (processRows envs (pre ++ bad :: rest) idx fs).1.countP isReceiptEv
      = pre.length ∧
    (processRows envs (pre ++ bad :: rest) idx fs).1.countP isScreenshotEv
      = pre.length + 1 ∧
    (processRows envs (pre ++ bad :: rest) idx fs).1.countP isSelectHeadEv
      = pre.length + 1 := by
  intro pre
  induction pre with
  | nil =>
      intro bad rest idx fs _ hbad hfresh _
      have hbad' : ∀ i, i < MAX_RETRIES →
          has_server_error ((envs idx).submitCheck i) = true := by
        intro i hi
        have := hbad i hi
        simpa using this
      have hfe := fill_fail_eq (envs idx) bad fs hbad'
      have hcounts := fill_fail_counts (envs idx) bad fs hbad'
      have hfb := hfresh bad (List.mem_cons_self bad [])
      have hkey : processRows envs ([] ++ bad :: rest) idx fs
          = ((fill_and_submit_orders (envs idx) bad fs).1,
             (fill_and_submit_orders (envs idx) bad fs).2.1,
             Except.error (exhaustionErr MAX_RETRIES)) := by
        have herr : (fill_and_submit_orders (envs idx) bad fs).2.2
            = Except.error (exhaustionErr MAX_RETRIES) := by rw [hfe]
        simp only [List.nil_append, processRows, herr]
      simp only [List.nil_append]
      rw [List.nil_append] at hkey
      rw [hkey]
      refine ⟨rfl, ?_, hcounts.1, hcounts.2.1, hcounts.2.2.1,
        hcounts.2.2.2⟩
      rw [hfe]
      show fsWrite fs (screenshotLoc bad) FileData.png = _
      rw [fsWrite_fresh fs _ _ hfb.1]
      simp [rowFiles]
  | cons o pre' ih =>
      intro bad rest idx fs hsucc hbad hfresh hnodup
      have hs0 : RowSucceeds (envs idx) := by
        have := hsucc 0 (by simp)
        simpa using this
      have hfo := hfresh o (List.mem_cons_of_mem bad (List.mem_cons_self o pre'))
      have hcounts := fill_success_counts (envs idx) o fs hs0
      have hfe := fill_success_eq (envs idx) o fs hs0
      have hw1 : fsWrite fs (screenshotLoc o) FileData.png
          = fs ++ [(screenshotLoc o, FileData.png)] :=
        fsWrite_fresh fs _ _ hfo.1
      have hlk2 : fsLookup (fsWrite fs (screenshotLoc o) FileData.png)
          (receiptLoc o) = none := by
        rw [fsWrite_lookup_ne fs _ _ _
          (Ne.symm (screenshotLoc_ne_receiptLoc o o))]
        exact hfo.2
      have hw2 : (fill_and_submit_orders (envs idx) o fs).2.1
          = fs ++ [(screenshotLoc o, FileData.png),
              (receiptLoc o, FileData.pdfFile (full_html
                (envs idx).receiptHtml
                ("output/orders_screenshots/screenshot_"
                  ++ o.orderNumber ++ ".png")))] := by
        rw [hfe]
        show fsWrite (fsWrite fs (screenshotLoc o) FileData.png)
            (receiptLoc o) _ = _
        rw [fsWrite_fresh _ _ _ hlk2, hw1, List.append_assoc]
        rfl
      have hnd : o.orderNumber ∉ (pre' ++ [bad]).map Order.orderNumber ∧
          ((pre' ++ [bad]).map Order.orderNumber).Nodup := by
        rw [show (o :: pre') ++ [bad] = o :: (pre' ++ [bad]) from rfl,
          List.map_cons, List.nodup_cons] at hnodup
        exact hnodup
      have hnum : ∀ o', o' ∈ bad :: pre' → o'.orderNumber ≠ o.orderNumber := by
        intro o' ho' hc
        apply hnd.1
        rw [← hc]
        rcases List.mem_cons.mp ho' with h | h
        · subst h
          exact List.mem_map_of_mem Order.orderNumber
            (List.mem_append_right pre' (List.mem_cons_self o' []))
        · exact List.mem_map_of_mem Order.orderNumber
            (List.mem_append_left [bad] h)
      have hfresh' : ∀ o', o' ∈ bad :: pre' →
          fsLookup ((fill_and_submit_orders (envs idx) o fs).2.1)
            (screenshotLoc o') = none ∧
          fsLookup ((fill_and_submit_orders (envs idx) o fs).2.1)
            (receiptLoc o') = none := by
        intro o' ho'
        have hnum' := hnum o' ho'
        have hss : screenshotLoc o ≠ screenshotLoc o' := by
          intro hc
          exact hnum' (screenshotLoc_inj o o' hc).symm
        have hrr : receiptLoc o ≠ receiptLoc o' := by
          intro hc
          exact hnum' (receiptLoc_inj o o' hc).symm
        have hfo' : fsLookup fs (screenshotLoc o') = none ∧
            fsLookup fs (receiptLoc o') = none := by
          rcases List.mem_cons.mp ho' with h | h
          · exact h ▸ hfresh bad (List.mem_cons_self bad (o :: pre'))
          · exact hfresh o' (List.mem_cons_of_mem bad
              (List.mem_cons_of_mem o h))
        rw [hw2]
        constructor
        · refine fsLookup_append_none _ _ _ hfo'.1 ?_
          simp [fsLookup, hss, Ne.symm (screenshotLoc_ne_receiptLoc o' o)]
        · refine fsLookup_append_none _ _ _ hfo'.2 ?_
          simp [fsLookup, hrr, screenshotLoc_ne_receiptLoc o o']
      have hsucc' : ∀ i, i < pre'.length →
          RowSucceeds (envs (idx + 1 + i)) := by
        intro i hi
        have := hsucc (i + 1) (by simpa using Nat.succ_lt_succ hi)
        rwa [show idx + (i + 1) = idx + 1 + i by omega] at this
      have hbad' : ∀ i, i < MAX_RETRIES →
          has_server_error
            ((envs (idx + 1 + pre'.length)).submitCheck i) = true := by
        intro i hi
        have := hbad i hi
        rwa [show idx + (o :: pre').length = idx + 1 + pre'.length by
          simp [List.length_cons]; omega] at this
      have ihr := ih bad rest (idx + 1)
        ((fill_and_submit_orders (envs idx) o fs).2.1)
        hsucc' hbad' hfresh' hnd.2
      have hkey : processRows envs ((o :: pre') ++ bad :: rest) idx fs
          = ((fill_and_submit_orders (envs idx) o fs).1
              ++ (processRows envs (pre' ++ bad :: rest) (idx + 1)
                    ((fill_and_submit_orders (envs idx) o fs).2.1)).1,
             (processRows envs (pre' ++ bad :: rest) (idx + 1)
                ((fill_and_submit_orders (envs idx) o fs).2.1)).2.1,
             (processRows envs (pre' ++ bad :: rest) (idx + 1)
                ((fill_and_submit_orders (envs idx) o fs).2.1)).2.2) := by
        have hok : (fill_and_submit_orders (envs idx) o fs).2.2
            = Except.ok () := by rw [hfe]
        simp only [List.cons_append, processRows, hok]
        rfl
      rw [hkey]
      refine ⟨ihr.1, ?_, ?_, ?_, ?_, ?_⟩
      · rw [ihr.2.1, hw2, List.append_assoc, List.append_assoc]
        simp [rowFiles, List.append_assoc]
      · simp only [List.countP_append, hcounts.1, ihr.2.2.1]
      · simp only [List.countP_append, hcounts.2.1, ihr.2.2.2.1,
          List.length_cons]
        omega
      · simp only [List.countP_append, hcounts.2.2.1, ihr.2.2.2.2.1,
          List.length_cons]
        omega
      · simp only [List.countP_append, hcounts.2.2.2, ihr.2.2.2.2.2,
          List.length_cons]
        omega

/-! ## Helper lemmas: flat path strings -/

lemma flat_screenshot_path (n : String) :
    "output/orders_screenshots" ++ "/" ++ ("screenshot_" ++ n ++ ".png")
      = "output/orders_screenshots/screenshot_" ++ n ++ ".png" := by
  apply String.ext
  simp only [String.data_append]
  simp [List.append_assoc]

/-- The screenshot file's rendered path is exactly the flat string that
`store_receipt_as_pdf` hardcodes into the receipt HTML. -/
lemma render_screenshotLoc (o : Order) :
    (screenshotLoc o).render
      = "output/orders_screenshots/screenshot_" ++ o.orderNumber ++ ".png" :=
  flat_screenshot_path o.orderNumber

lemma full_html_embeds (r p : String) :
    ∃ a b, full_html r p = a ++ p ++ b :=
  ⟨_, _, rfl⟩

/-! ## Claims about one row's processing -/

/-- Claim C8: on the success path, `fill_and_submit_orders` performs its
steps in this fixed order: fill the four form fields verbatim from the
row, click preview and capture the screenshot, run submit-with-retry,
render the receipt PDF, click order-another, and finally re-run the
modal-dismiss check; nothing is reordered or skipped. -/
theorem row_steps_fixed_order (env : RowEnv) (o : Order) (fs : Fs)
    (h : RowSucceeds env) :
    fill_and_submit_orders env o fs =
      ([Event.selectHead o.head, Event.checkBody o.body,
        Event.fillLegs o.legs, Event.fillAddress o.address,
        Event.clickPreview, Event.screenshotSaved (screenshotLoc o)]
        ++ (submit_order_with_retry env.submitCheck MAX_RETRIES).1
        ++ [Event.receiptSaved (receiptLoc o)
              (full_html env.receiptHtml
                ("output/orders_screenshots/screenshot_"
                  ++ o.orderNumber ++ ".png")),
            Event.clickOrderAnother]
        ++ (close_annoying_modal env.modalVisible env.modalClick
              MODAL_TIMEOUT).1,
       fsWrite (fsWrite fs (screenshotLoc o) FileData.png) (receiptLoc o)
         (FileData.pdfFile (full_html env.receiptHtml
           ("output/orders_screenshots/screenshot_"
             ++ o.orderNumber ++ ".png"))),
       Except.ok ()) :=
  fill_success_eq env o fs h

/-- Witness for C8: the fixed step order on a concrete successful row. -/
theorem row_steps_fixed_order_witness :
    RowSucceeds wRowOk ∧
    fill_and_submit_orders wRowOk wOrder1 [] =
      ([Event.selectHead wOrder1.head, Event.checkBody wOrder1.body,
        Event.fillLegs wOrder1.legs, Event.fillAddress wOrder1.address,
        Event.clickPreview, Event.screenshotSaved (screenshotLoc wOrder1)]
        ++ (submit_order_with_retry wRowOk.submitCheck MAX_RETRIES).1
        ++ [Event.receiptSaved (receiptLoc wOrder1)
              (full_html wRowOk.receiptHtml
                ("output/orders_screenshots/screenshot_"
                  ++ wOrder1.orderNumber ++ ".png")),
            Event.clickOrderAnother]
        ++ (close_annoying_modal wRowOk.modalVisible wRowOk.modalClick
              MODAL_TIMEOUT).1,
       fsWrite (fsWrite [] (screenshotLoc wOrder1) FileData.png)
         (receiptLoc wOrder1)
         (FileData.pdfFile (full_html wRowOk.receiptHtml
           ("output/orders_screenshots/screenshot_"
             ++ wOrder1.orderNumber ++ ".png"))),
       Except.ok ()) :=
  ⟨by decide, row_steps_fixed_order wRowOk wOrder1 [] (by decide)⟩

/-- Claim C4: a row processed without fatal error yields exactly one
screenshot event and exactly one receipt event, at the paths
`screenshot_<OrderNumber>.png` in the screenshots directory and
`receipt_<OrderNumber>.pdf` in the receipts directory; both files are
in the final filesystem, and the receipt's HTML embeds the rendered
file path of that same row's screenshot. -/
theorem row_outputs_screenshot_and_receipt (env : RowEnv) (o : Order)
    (fs : Fs) (h : RowSucceeds env) :
    (fill_and_submit_orders env o fs).1.countP isScreenshotEv = 1 ∧
    Event.screenshotSaved (screenshotLoc o)
      ∈ (fill_and_submit_orders env o fs).1 ∧
    (fill_and_submit_orders env o fs).1.countP isReceiptEv = 1 ∧
    Event.receiptSaved (receiptLoc o)
        (full_html env.receiptHtml ((screenshotLoc o).render))
      ∈ (fill_and_submit_orders env o fs).1 ∧
    fsLookup (fill_and_submit_orders env o fs).2.1 (screenshotLoc o)
      = some FileData.png ∧
    fsLookup (fill_and_submit_orders env o fs).2.1 (receiptLoc o)
      = some (FileData.pdfFile
          (full_html env.receiptHtml ((screenshotLoc o).render))) ∧
    (∃ a b, full_html env.receiptHtml ((screenshotLoc o).render)
      = a ++ (screenshotLoc o).render ++ b) := by
  have hcounts := fill_success_counts env o fs h
  have hfe := fill_success_eq env o fs h
  rw [render_screenshotLoc o]
  refine ⟨hcounts.2.2.1, ?_, hcounts.2.1, ?_, ?_, ?_, full_html_embeds _ _⟩
  · rw [hfe]; simp
  · rw [hfe]; simp
  · rw [hfe]
    show fsLookup (fsWrite (fsWrite fs (screenshotLoc o) FileData.png)
      (receiptLoc o) _) (screenshotLoc o) = some FileData.png
    rw [fsWrite_lookup_ne _ _ _ _ (screenshotLoc_ne_receiptLoc o o)]
    exact fsWrite_lookup_self fs _ _
  · rw [hfe]
    exact fsWrite_lookup_self _ _ _

/-- Witness for C4: the outputs of one concrete successful row. -/
theorem row_outputs_screenshot_and_receipt_witness :
    RowSucceeds wRowOk ∧
    ((fill_and_submit_orders wRowOk wOrder1 []).1.countP isScreenshotEv
        = 1 ∧
      Event.screenshotSaved (screenshotLoc wOrder1)
        ∈ (fill_and_submit_orders wRowOk wOrder1 []).1 ∧
      (fill_and_submit_orders wRowOk wOrder1 []).1.countP isReceiptEv
        = 1 ∧
      Event.receiptSaved (receiptLoc wOrder1)
          (full_html wRowOk.receiptHtml ((screenshotLoc wOrder1).render))
        ∈ (fill_and_submit_orders wRowOk wOrder1 []).1 ∧
      fsLookup (fill_and_submit_orders wRowOk wOrder1 []).2.1
          (screenshotLoc wOrder1) = some FileData.png ∧
      fsLookup (fill_and_submit_orders wRowOk wOrder1 []).2.1
          (receiptLoc wOrder1)
        = some (FileData.pdfFile (full_html wRowOk.receiptHtml
            ((screenshotLoc wOrder1).render))) ∧
      (∃ a b, full_html wRowOk.receiptHtml ((screenshotLoc wOrder1).render)
        = a ++ (screenshotLoc wOrder1).render ++ b)) :=
  ⟨by decide, row_outputs_screenshot_and_receipt wRowOk wOrder1 []
    (by decide)⟩

/-! ## Claims about the whole run -/

/-- Claim C5: on a run (from an empty output state) whose `n`-row feed
never triggers a submit error, the archive step runs exactly once — the
trace ends with the single archive event, strictly after all row
processing — and the zip at `ARCHIVE_PATH` contains exactly the `n`
receipt PDFs; moreover, on any filesystem the archive step bundles
every file currently in the receipts directory into a zip at
`ARCHIVE_PATH`, overwriting any existing entry there. -/
theorem archive_runs_once_after_rows (env : RunEnv) (rows : List Order)
    (hrows : env.parse (env.fetch ORDERS_CSV_URL) = rows)
    (hsucc : ∀ i, i < rows.length → RowSucceeds (env.rowEnv i))
    (hnodup : (rows.map Order.orderNumber).Nodup) :
    (order_robots_from_RobotSpareBin env []).2.2 = Except.ok () ∧
    (∃ evs, (order_robots_from_RobotSpareBin env []).1
        = evs ++ [Event.archiveZip RECEIPTS_DIR ARCHIVE_PATH] ∧
      evs.countP isArchiveEv = 0) ∧
    fsLookup (order_robots_from_RobotSpareBin env []).2.1 ARCHIVE_PATH
      = some (FileData.zipData
          (rows.map (fun o => "receipt_" ++ o.orderNumber ++ ".pdf"))) ∧
    (∀ fs : Fs, fsLookup (archive_receipts fs).2 ARCHIVE_PATH
      = some (FileData.zipData (filesInDir RECEIPTS_DIR fs))) := by
  have hfresh1 : ∀ o, o ∈ rows →
      fsLookup [(ORDERS_CSV_FILE,
          FileData.csvData (env.fetch ORDERS_CSV_URL))]
        (screenshotLoc o) = none ∧
      fsLookup [(ORDERS_CSV_FILE,
          FileData.csvData (env.fetch ORDERS_CSV_URL))]
        (receiptLoc o) = none := by
    intro o _
    constructor <;>
      simp [fsLookup, Ne.symm (screenshotLoc_ne_csv o),
        Ne.symm (receiptLoc_ne_csv o)]
  have hsucc0 : ∀ i, i < rows.length → RowSucceeds (env.rowEnv (0 + i)) := by
    intro i hi
    simpa using hsucc i hi
  have hpr := processRows_success env.rowEnv rows 0
    [(ORDERS_CSV_FILE, FileData.csvData (env.fetch ORDERS_CSV_URL))]
    hsucc0 hfresh1 hnodup
  have hrun : order_robots_from_RobotSpareBin env []
      = ([Event.gotoUrl ROBOT_ORDER_URL]
          ++ (close_annoying_modal env.initModalVisible env.initModalClick
                MODAL_TIMEOUT).1
          ++ [Event.httpDownload ORDERS_CSV_URL]
          ++ (processRows env.rowEnv rows 0
                [(ORDERS_CSV_FILE,
                  FileData.csvData (env.fetch ORDERS_CSV_URL))]).1
          ++ [Event.archiveZip RECEIPTS_DIR ARCHIVE_PATH],
         fsWrite (processRows env.rowEnv rows 0
             [(ORDERS_CSV_FILE,
               FileData.csvData (env.fetch ORDERS_CSV_URL))]).2.1
           ARCHIVE_PATH
           (FileData.zipData (filesInDir RECEIPTS_DIR
             (processRows env.rowEnv rows 0
               [(ORDERS_CSV_FILE,
                 FileData.csvData (env.fetch ORDERS_CSV_URL))]).2.1)),
         Except.ok ()) := by
    simp only [order_robots_from_RobotSpareBin, download_csv, fsWrite,
      get_orders_from_csv, csvContent, fsLookup, eq_self_iff_true, if_true,
      hrows, hpr.1, archive_receipts]
  refine ⟨?_, ?_, ?_, ?_⟩
  · rw [hrun]
  · refine ⟨[Event.gotoUrl ROBOT_ORDER_URL]
      ++ (close_annoying_modal env.initModalVisible env.initModalClick
            MODAL_TIMEOUT).1
      ++ [Event.httpDownload ORDERS_CSV_URL]
      ++ (processRows env.rowEnv rows 0
            [(ORDERS_CSV_FILE,
              FileData.csvData (env.fetch ORDERS_CSV_URL))]).1, ?_, ?_⟩
    · rw [hrun]
    · have hm := countP_modal_zero env.initModalVisible env.initModalClick
        MODAL_TIMEOUT isArchiveEv rfl
      simp [List.countP_append, hm, hpr.2.2.1, isArchiveEv]
  · rw [hrun]
    show fsLookup (fsWrite _ ARCHIVE_PATH _) ARCHIVE_PATH = _
    rw [fsWrite_lookup_self, hpr.2.1, filesInDir_append,
      rowFiles_filesInDir]
    simp [filesInDir, ORDERS_CSV_FILE, RECEIPTS_DIR]
  · intro fs
    simp [archive_receipts, fsWrite_lookup_self]

/-- Witness for C5: a two-row feed with a server that never errors. -/
theorem archive_runs_once_after_rows_witness :
    (wEnvOk.parse (wEnvOk.fetch ORDERS_CSV_URL) = [wOrder1, wOrder2] ∧
      (∀ i, i < [wOrder1, wOrder2].length →
        RowSucceeds (wEnvOk.rowEnv i)) ∧
      ([wOrder1, wOrder2].map Order.orderNumber).Nodup) ∧
    (order_robots_from_RobotSpareBin wEnvOk []).2.2 = Except.ok () ∧
    (∃ evs, (order_robots_from_RobotSpareBin wEnvOk []).1
        = evs ++ [Event.archiveZip RECEIPTS_DIR ARCHIVE_PATH] ∧
      evs.countP isArchiveEv = 0) ∧
    fsLookup (order_robots_from_RobotSpareBin wEnvOk []).2.1 ARCHIVE_PATH
      = some (FileData.zipData
          ([wOrder1, wOrder2].map
            (fun o => "receipt_" ++ o.orderNumber ++ ".pdf"))) ∧
    (∀ fs : Fs, fsLookup (archive_receipts fs).2 ARCHIVE_PATH
      = some (FileData.zipData (filesInDir RECEIPTS_DIR fs))) :=
  ⟨⟨rfl, by decide, by decide⟩,
   archive_runs_once_after_rows wEnvOk [wOrder1, wOrder2] rfl
     (by decide) (by decide)⟩

/-- Claim C3: when the submit of some row exhausts its retries (all
earlier rows succeeding), the run ends with the retry-exhaustion error:
the failing row gets no receipt (its receipt event count stays at the
earlier rows' total and its receipt path is absent from the final
filesystem), no later row is started, and the archive step is never
reached (no archive event, nothing at the zip path). -/
theorem run_aborts_on_retry_exhaustion (env : RunEnv)
    (pre : List Order) (bad : Order) (rest : List Order)
    (hrows : env.parse (env.fetch ORDERS_CSV_URL) = pre ++ bad :: rest)
    (hpre : ∀ i, i < pre.length → RowSucceeds (env.rowEnv i))
    (hbad : ∀ i, i < MAX_RETRIES →
      has_server_error ((env.rowEnv pre.length).submitCheck i) = true)
    (hnodup : ((pre ++ [bad]).map Order.orderNumber).Nodup) :
    (order_robots_from_RobotSpareBin env []).2.2
      = Except.error (exhaustionErr MAX_RETRIES) ∧
    (order_robots_from_RobotSpareBin env []).1.countP isArchiveEv = 0 ∧
    (order_robots_from_RobotSpareBin env []).1.countP isReceiptEv
      = pre.length ∧
    (order_robots_from_RobotSpareBin env []).1.countP isSelectHeadEv
      = pre.length + 1 ∧
    fsLookup (order_robots_from_RobotSpareBin env []).2.1 (receiptLoc bad)
      = none ∧
    fsLookup (order_robots_from_RobotSpareBin env []).2.1 ARCHIVE_PATH
      = none := by
  have hfresh1 : ∀ o, o ∈ bad :: pre →
      fsLookup [(ORDERS_CSV_FILE,
          FileData.csvData (env.fetch ORDERS_CSV_URL))]
        (screenshotLoc o) = none ∧
      fsLookup [(ORDERS_CSV_FILE,
          FileData.csvData (env.fetch ORDERS_CSV_URL))]
        (receiptLoc o) = none := by
    intro o _
    constructor <;>
      simp [fsLookup, Ne.symm (screenshotLoc_ne_csv o),
        Ne.symm (receiptLoc_ne_csv o)]
  have hpre0 : ∀ i, i < pre.length → RowSucceeds (env.rowEnv (0 + i)) := by
    intro i hi
    simpa using hpre i hi
  have hbad0 : ∀ i, i < MAX_RETRIES →
      has_server_error ((env.rowEnv (0 + pre.length)).submitCheck i)
        = true := by
    intro i hi
    simpa using hbad i hi
  have hpr := processRows_abort env.rowEnv pre bad rest 0
    [(ORDERS_CSV_FILE, FileData.csvData (env.fetch ORDERS_CSV_URL))]
    hpre0 hbad0 hfresh1 hnodup
  have hrun : order_robots_from_RobotSpareBin env []
      = ([Event.gotoUrl ROBOT_ORDER_URL]
          ++ (close_annoying_modal env.initModalVisible env.initModalClick
                MODAL_TIMEOUT).1
          ++ [Event.httpDownload ORDERS_CSV_URL]
          ++ (processRows env.rowEnv (pre ++ bad :: rest) 0
                [(ORDERS_CSV_FILE,
                  FileData.csvData (env.fetch ORDERS_CSV_URL))]).1,
         (processRows env.rowEnv (pre ++ bad :: rest) 0
            [(ORDERS_CSV_FILE,
              FileData.csvData (env.fetch ORDERS_CSV_URL))]).2.1,
         Except.error (exhaustionErr MAX_RETRIES)) := by
    simp only [order_robots_from_RobotSpareBin, download_csv, fsWrite,
      get_orders_from_csv, csvContent, fsLookup, eq_self_iff_true, if_true,
      hrows, hpr.1]
  have hm := countP_modal_zero env.initModalVisible env.initModalClick
    MODAL_TIMEOUT
  have hnum_bad : ∀ o, o ∈ pre → bad.orderNumber ≠ o.orderNumber := by
    intro o ho hc
    rw [List.map_append, List.nodup_append] at hnodup
    exact hnodup.2.2 (List.mem_map_of_mem Order.orderNumber ho)
      (by simp [hc])
  have hlkrc : fsLookup (processRows env.rowEnv (pre ++ bad :: rest) 0
      [(ORDERS_CSV_FILE, FileData.csvData (env.fetch ORDERS_CSV_URL))]).2.1
      (receiptLoc bad) = none := by
    rw [hpr.2.1]
    refine fsLookup_append_none _ _ _ (fsLookup_append_none _ _ _ ?_ ?_) ?_
    · simp [fsLookup, Ne.symm (receiptLoc_ne_csv bad)]
    · refine rowFiles_lookup_none env.rowEnv _ pre 0 ?_
      intro o ho
      refine ⟨Ne.symm (screenshotLoc_ne_receiptLoc o bad), ?_⟩
      intro hc
      exact hnum_bad o ho (receiptLoc_inj bad o hc)
    · simp [fsLookup, screenshotLoc_ne_receiptLoc bad bad]
  have hlkar : fsLookup (processRows env.rowEnv (pre ++ bad :: rest) 0
      [(ORDERS_CSV_FILE, FileData.csvData (env.fetch ORDERS_CSV_URL))]).2.1
      ARCHIVE_PATH = none := by
    rw [hpr.2.1]
    refine fsLookup_append_none _ _ _ (fsLookup_append_none _ _ _ ?_ ?_) ?_
    · simp [fsLookup, show ORDERS_CSV_FILE ≠ ARCHIVE_PATH from by decide]
    · refine rowFiles_lookup_none env.rowEnv _ pre 0 ?_
      intro o _
      exact ⟨Ne.symm (screenshotLoc_ne_archive o),
        Ne.symm (receiptLoc_ne_archive o)⟩
    · simp [fsLookup, screenshotLoc_ne_archive bad]
  refine ⟨?_, ?_, ?_, ?_, ?_, ?_⟩
  · rw [hrun]
  · rw [hrun]
    simp [List.countP_append, hm isArchiveEv rfl, hpr.2.2.1, isArchiveEv]
  · rw [hrun]
    simp [List.countP_append, hm isReceiptEv rfl, hpr.2.2.2.1, isReceiptEv]
  · rw [hrun]
    simp [List.countP_append, hm isSelectHeadEv rfl, hpr.2.2.2.2.2,
      isSelectHeadEv]
  · rw [hrun]
    exact hlkrc
  · rw [hrun]
    exact hlkar

/-- Witness for C3: a one-row feed whose submit always errors. -/
theorem run_aborts_on_retry_exhaustion_witness :
    (wEnvBad.parse (wEnvBad.fetch ORDERS_CSV_URL) = [] ++ wOrder1 :: [] ∧
      (∀ i, i < ([] : List Order).length →
        RowSucceeds (wEnvBad.rowEnv i)) ∧
      (∀ i, i < MAX_RETRIES →
        has_server_error
          ((wEnvBad.rowEnv ([] : List Order).length).submitCheck i)
          = true) ∧
      ((([] : List Order) ++ [wOrder1]).map Order.orderNumber).Nodup) ∧
    (order_robots_from_RobotSpareBin wEnvBad []).2.2
      = Except.error (exhaustionErr MAX_RETRIES) ∧
    (order_robots_from_RobotSpareBin wEnvBad []).1.countP isArchiveEv
      = 0 ∧
    (order_robots_from_RobotSpareBin wEnvBad []).1.countP isReceiptEv
      = ([] : List Order).length ∧
    (order_robots_from_RobotSpareBin wEnvBad []).1.countP isSelectHeadEv
      = ([] : List Order).length + 1 ∧
    fsLookup (order_robots_from_RobotSpareBin wEnvBad []).2.1
      (receiptLoc wOrder1) = none ∧
    fsLookup (order_robots_from_RobotSpareBin wEnvBad []).2.1 ARCHIVE_PATH
      = none :=
  ⟨⟨rfl, fun i hi => absurd hi (Nat.not_lt_zero i), by decide, by decide⟩,
   run_aborts_on_retry_exhaustion wEnvBad [] wOrder1 [] rfl
     (fun i hi => absurd hi (Nat.not_lt_zero i)) (by decide) (by decide)⟩

end RobotOrder
